import Mathlib

/-!
Verification of the LifeLens sentiment service
(src/services/sentiment/app/main.py).

The service wraps a binary sentiment model: the model returns a raw label
(POSITIVE or NEGATIVE) and a confidence score; the service remaps that pair
to a three-way label (positive/negative/neutral) via a 0.6 confidence
threshold. Machine floats are embedded as exact rationals; the external
inference pipeline is embedded as an abstract function from texts to raw
predictions, and the `sentiment_pipeline` global (which is `None` when model
loading failed) as an `Option` of that function type. Each HTTP handler
becomes a function returning either a 200 payload or an error status code
with its detail string.
-/

namespace LifeLens

/-- Python `len(s)`: the number of characters of the string. -/
def pyLen (s : String) : Nat := s.data.length

/-- Python `s[:n]`: the first `n` characters of the string (all of it when it
is shorter). -/
def pySlice (s : String) (n : Nat) : String := ⟨s.data.take n⟩

/-- Python `s.strip()`: the string with leading and trailing whitespace
removed. -/
def pyStrip (s : String) : String :=
  ⟨(((s.data.dropWhile Char.isWhitespace).reverse).dropWhile
      Char.isWhitespace).reverse⟩

/-- Raw label produced by the upstream model (main.py line 74: the model
returns POSITIVE or NEGATIVE). -/
inductive RawLabel where
  | POSITIVE
  | NEGATIVE
deriving DecidableEq, Repr

/-- One element of the list returned by `sentiment_pipeline(text)`: a dict
with a `label` and a `score` (confidence), embedded with the score as an
exact rational. -/
structure RawPrediction where
  label : RawLabel
  score : ℚ
deriving DecidableEq, Repr

/-- The loaded inference pipeline, abstracted as a function from the (already
truncated) input text to the first raw prediction of its result list. -/
def Pipeline : Type := String → RawPrediction

/-- The `scores` dict of a response; its key set is always exactly
{positive, negative, neutral} (main.py lines 81-92), so it is embedded as a
structure with those three fields. -/
structure Scores where
  positive : ℚ
  negative : ℚ
  neutral : ℚ
deriving DecidableEq, Repr

/-- SentimentResponse pydantic model (main.py lines 45-48). -/
structure SentimentResponse where
  label : String
  score : ℚ
  scores : Scores
deriving DecidableEq, Repr

/-- The label/score remapping of `analyze_sentiment` (main.py lines 79-103):
map POSITIVE/NEGATIVE to a label and a three-entry scores dict, then, when the
confidence is below 0.6, force the label to neutral and overwrite only the
neutral entry. The identical code is inlined in the batch endpoint
(lines 133-150). -/
def remap (result : RawPrediction) : SentimentResponse :=
  let step12 : String × Scores :=
    if result.label = RawLabel.POSITIVE then
      ("positive",
        { positive := result.score, negative := 1 - result.score, neutral := 0 })
    else
      ("negative",
        { positive := 1 - result.score, negative := result.score, neutral := 0 })
  let final : String × Scores :=
    if result.score < 0.6 then
      ("neutral", { step12.2 with neutral := 1 - result.score })
    else
      step12
  { label := final.1, score := result.score, scores := final.2 }

/-- Sum of the three entries of a `scores` dict. -/
def scoresSum (s : Scores) : ℚ :=
  s.positive + s.negative + s.neutral

/-- Outcome of one HTTP request: a 200 payload, or a raised `HTTPException`
with a status code and a detail string. -/
inductive HttpResult (α : Type) where
  | ok : α → HttpResult α
  | error : Nat → String → HttpResult α
deriving DecidableEq, Repr

/-- HTTP status code of a request outcome (FastAPI returns 200 for a plain
return value). -/
def HttpResult.statusCode {α : Type} : HttpResult α → Nat
  | .ok _ => 200
  | .error code _ => code

/-- Body of `GET /health` (main.py lines 52-56). -/
structure HealthResponse where
  status : String
  model_loaded : Bool
deriving DecidableEq, Repr

/-- `GET /health` handler (main.py lines 51-56): always a 200 payload,
`model_loaded` reflecting whether `sentiment_pipeline` is non-null. -/
def health_check (sentiment_pipeline : Option Pipeline) : HttpResult HealthResponse :=
  .ok { status := "healthy", model_loaded := sentiment_pipeline.isSome }

/-- `POST /analyze` handler (main.py lines 59-103): 503 when the pipeline is
null, 400 when the text is empty or whitespace-only, otherwise the remapped
prediction on the text truncated to 512 characters. The 500
inference-failure path (lines 105-107) is outside this embedding: the
abstract pipeline is a total function. -/
def analyze_sentiment (sentiment_pipeline : Option Pipeline) (text : String) :
    HttpResult SentimentResponse :=
  match sentiment_pipeline with
  | none => .error 503 "Model not loaded"
  | some pl =>
    if text.data.isEmpty || pyLen (pyStrip text) == 0 then
      .error 400 "Text cannot be empty"
    else
      .ok (remap (pl (pySlice text 512)))

/-- One element of the `results` list of the batch endpoint
(main.py lines 152-157). -/
structure BatchEntry where
  text : String
  label : String
  score : ℚ
  scores : Scores
deriving DecidableEq, Repr

/-- The per-text guard of the batch loop (main.py line 127):
`if text and len(text.strip()) > 0`. -/
def textKept (text : String) : Bool :=
  !text.data.isEmpty && decide (0 < pyLen (pyStrip text))

/-- One iteration body of the batch loop (main.py lines 128-157): truncate to
512 characters for inference, remap, and echo the text truncated to 100
characters with a "..." suffix when it was longer than 100. -/
def batchEntry (pl : Pipeline) (text : String) : BatchEntry :=
  let result := pl (pySlice text 512)
  let r := remap result
  { text := if pyLen text > 100 then pySlice text 100 ++ "..." else text,
    label := r.label,
    score := r.score,
    scores := r.scores }

/-- The batch loop (main.py lines 125-157): texts failing the guard are
skipped, the others contribute one entry each, in input order. -/
def processBatch (pl : Pipeline) : List String → List BatchEntry
  | [] => []
  | text :: rest =>
    if textKept text then batchEntry pl text :: processBatch pl rest
    else processBatch pl rest

/-- Body of `POST /analyze/batch` (main.py lines 159-162). -/
structure BatchResponse where
  results : List BatchEntry
  total : Nat
deriving DecidableEq, Repr

/-- `POST /analyze/batch` handler (main.py lines 113-162): 503 when the
pipeline is null, 400 when the list is empty or has more than 100 entries,
otherwise the loop output with `total` the length of the results list. -/
def analyze_sentiment_batch (sentiment_pipeline : Option Pipeline)
    (texts : List String) : HttpResult BatchResponse :=
  match sentiment_pipeline with
  | none => .error 503 "Model not loaded"
  | some pl =>
    if texts.isEmpty || texts.length == 0 then
      .error 400 "No texts provided"
    else if texts.length > 100 then
      .error 400 "Maximum 100 texts per batch"
    else
      let results := processBatch pl texts
      .ok { results := results, total := results.length }

/-- A fixed pipeline used to instantiate universally quantified statements at
concrete inputs. -/
def constPipeline : Pipeline := fun _ => { label := RawLabel.POSITIVE, score := 0.95 }

/-- A concrete 150-character text, used to instantiate echo-truncation
statements. -/
def longText : String := ⟨List.replicate 150 'a'⟩

/-- The batch loop output is the per-text entry map over the texts that pass
the guard, in input order. -/
theorem processBatch_eq (pl : Pipeline) (texts : List String) :
    processBatch pl texts = (texts.filter textKept).map (batchEntry pl) := by
  induction texts with
  | nil => rfl
  | cons t ts ih =>
    by_cases h : textKept t <;>
      simp [processBatch, List.filter_cons, h, ih]

/-- C1: for rawLabel in {POSITIVE, NEGATIVE} and confidence at least 0.6, the
remap yields label "positive" exactly when the raw label is POSITIVE (and
"negative" exactly when it is NEGATIVE), the chosen class keeps the
confidence as its score, the opposite class gets 1 - confidence, and the
neutral score is 0. -/
theorem remap_high_confidence (l : RawLabel) (c : ℚ) (h : (0.6 : ℚ) ≤ c) :
    ((remap { label := l, score := c }).label = "positive" ↔ l = RawLabel.POSITIVE) ∧
    ((remap { label := l, score := c }).label = "negative" ↔ l = RawLabel.NEGATIVE) ∧
    (l = RawLabel.POSITIVE →
      (remap { label := l, score := c }).scores.positive = c ∧
      (remap { label := l, score := c }).scores.negative = 1 - c) ∧
    (l = RawLabel.NEGATIVE →
      (remap { label := l, score := c }).scores.negative = c ∧
      (remap { label := l, score := c }).scores.positive = 1 - c) ∧
    (remap { label := l, score := c }).scores.neutral = 0 := by
  have hlt : ¬ (c < (0.6 : ℚ)) := not_lt.2 h
  cases l <;> simp [remap, hlt]

/-- Witness for C1 at rawLabel POSITIVE, confidence 0.95. -/
theorem remap_high_confidence_witness :
    (remap { label := RawLabel.POSITIVE, score := 0.95 }).label = "positive" ∧
    (remap { label := RawLabel.POSITIVE, score := 0.95 }).scores.positive = 0.95 ∧
    (remap { label := RawLabel.POSITIVE, score := 0.95 }).scores.negative = 1 - 0.95 ∧
    (remap { label := RawLabel.POSITIVE, score := 0.95 }).scores.neutral = 0 := by
  obtain ⟨hl, hn, hp, hq, hz⟩ :=
    remap_high_confidence RawLabel.POSITIVE 0.95 (by norm_num)
  exact ⟨hl.2 rfl, (hp rfl).1, (hp rfl).2, hz⟩

/-- C2: for confidence below 0.6 the remap yields label "neutral" regardless
of the raw label, with neutral score 1 - confidence; at rawLabel NEGATIVE,
confidence 0.55, the full result is label "neutral", score 0.55, and scores
positive 0.45, negative 0.55, neutral 0.45. -/
theorem remap_low_confidence (l : RawLabel) (c : ℚ) (h : c < (0.6 : ℚ)) :
    (remap { label := l, score := c }).label = "neutral" ∧
    (remap { label := l, score := c }).scores.neutral = 1 - c ∧
    remap { label := RawLabel.NEGATIVE, score := 0.55 } =
      { label := "neutral", score := 0.55,
        scores := { positive := 0.45, negative := 0.55, neutral := 0.45 } } := by
  refine ⟨?_, ?_, ?_⟩
  · cases l <;> simp [remap, h]
  · cases l <;> simp [remap, h]
  · simp [remap]
    norm_num

/-- Witness for C2 at rawLabel NEGATIVE, confidence 0.55. -/
theorem remap_low_confidence_witness :
    (remap { label := RawLabel.NEGATIVE, score := 0.55 }).label = "neutral" ∧
    (remap { label := RawLabel.NEGATIVE, score := 0.55 }).scores.neutral = 1 - 0.55 :=
  ⟨(remap_low_confidence RawLabel.NEGATIVE 0.55 (by norm_num)).1,
   (remap_low_confidence RawLabel.NEGATIVE 0.55 (by norm_num)).2.1⟩

/-- C3: for every raw label and confidence in [0,1], the `score` field of the
remapped result is the original confidence, in both branches. -/
theorem remap_score_unchanged (l : RawLabel) (c : ℚ)
    (h0 : 0 ≤ c) (h1 : c ≤ 1) :
    (remap { label := l, score := c }).score = c := rfl

/-- Witness for C3 at rawLabel NEGATIVE, confidence 0.55 (the forced-neutral
branch). -/
theorem remap_score_unchanged_witness :
    (remap { label := RawLabel.NEGATIVE, score := 0.55 }).score = 0.55 :=
  remap_score_unchanged RawLabel.NEGATIVE 0.55 (by norm_num) (by norm_num)

/-- C4: in exact arithmetic the three scores sum to exactly 1 when confidence
is at least 0.6, and to 2 - confidence (which is not 1) when confidence is
below 0.6. -/
theorem remap_scores_sum (l : RawLabel) (c : ℚ) :
    ((0.6 : ℚ) ≤ c → scoresSum (remap { label := l, score := c }).scores = 1) ∧
    (c < (0.6 : ℚ) →
      scoresSum (remap { label := l, score := c }).scores = 2 - c ∧
      scoresSum (remap { label := l, score := c }).scores ≠ 1) := by
  constructor
  · intro h
    have hlt : ¬ (c < (0.6 : ℚ)) := not_lt.2 h
    cases l <;> simp [remap, scoresSum, hlt]
  · intro h
    have hsum : scoresSum (remap { label := l, score := c }).scores = 2 - c := by
      cases l <;> simp [remap, scoresSum, h] <;> ring
    refine ⟨hsum, ?_⟩
    rw [hsum]
    intro hcontra
    have : c = 1 := by linarith
    rw [this] at h
    norm_num at h

/-- Witness for C4: sum 1 at confidence 0.95, sum 2 - 0.55 at confidence
0.55. -/
theorem remap_scores_sum_witness :
    scoresSum (remap { label := RawLabel.POSITIVE, score := 0.95 }).scores = 1 ∧
    scoresSum (remap { label := RawLabel.NEGATIVE, score := 0.55 }).scores = 2 - 0.55 ∧
    scoresSum (remap { label := RawLabel.NEGATIVE, score := 0.55 }).scores ≠ 1 :=
  ⟨(remap_scores_sum RawLabel.POSITIVE 0.95).1 (by norm_num),
   ((remap_scores_sum RawLabel.NEGATIVE 0.55).2 (by norm_num)).1,
   ((remap_scores_sum RawLabel.NEGATIVE 0.55).2 (by norm_num)).2⟩

/-- C5: an accepted batch request (1 to 100 texts, model loaded) yields a 200
response with one entry per non-blank input text in input order and `total`
equal to the length of the results list; the input ["", "good", "  ", "bad"]
yields exactly 2 entries and total 2. -/
theorem batch_one_entry_per_kept_text (pl : Pipeline) (texts : List String)
    (h1 : 1 ≤ texts.length) (h2 : texts.length ≤ 100) :
    (∃ resp, analyze_sentiment_batch (some pl) texts = HttpResult.ok resp ∧
      resp.results = (texts.filter textKept).map (batchEntry pl) ∧
      resp.total = resp.results.length) ∧
    (∃ resp,
      analyze_sentiment_batch (some pl) ["", "good", "  ", "bad"] =
        HttpResult.ok resp ∧
      resp.results.length = 2 ∧ resp.total = 2) := by
  constructor
  · have h0 : texts.length ≠ 0 := by omega
    have hne : texts.isEmpty = false := by
      cases texts with
      | nil => simp at h0
      | cons a as => rfl
    have hgate : analyze_sentiment_batch (some pl) texts =
        HttpResult.ok { results := processBatch pl texts,
                        total := (processBatch pl texts).length } := by
      unfold analyze_sentiment_batch
      rw [hne]
      simp [h0, Nat.not_lt.2 h2]
    exact ⟨_, hgate, processBatch_eq pl texts, rfl⟩
  · exact ⟨_, rfl, rfl, rfl⟩

/-- Witness for C5 at the concrete batch ["", "good", "  ", "bad"]. -/
theorem batch_one_entry_per_kept_text_witness :
    ∃ resp,
      analyze_sentiment_batch (some constPipeline) ["", "good", "  ", "bad"] =
        HttpResult.ok resp ∧
      resp.results.length = 2 ∧ resp.total = 2 :=
  (batch_one_entry_per_kept_text constPipeline ["", "good", "  ", "bad"]
    (by decide) (by decide)).2

/-- C6: every entry of the batch loop output comes from some input text, and
is echoed as the first 100 characters followed by "..." when that text has
more than 100 characters, unchanged otherwise. -/
theorem batch_entry_echo (pl : Pipeline) (texts : List String) (e : BatchEntry)
    (he : e ∈ processBatch pl texts) :
    ∃ t, t ∈ texts ∧
      (100 < pyLen t → e.text = pySlice t 100 ++ "...") ∧
      (pyLen t ≤ 100 → e.text = t) := by
  induction texts with
  | nil => simp [processBatch] at he
  | cons t ts ih =>
    by_cases hk : textKept t
    · rw [show processBatch pl (t :: ts) =
          batchEntry pl t :: processBatch pl ts by simp [processBatch, hk]] at he
      rcases List.mem_cons.1 he with he1 | he2
      · refine ⟨t, List.mem_cons_self t ts, ?_, ?_⟩
        · intro hlen
          rw [he1]
          simp [batchEntry, hlen]
        · intro hlen
          rw [he1]
          simp [batchEntry, Nat.not_lt.2 hlen]
      · obtain ⟨u, hu, ha, hb⟩ := ih he2
        exact ⟨u, List.mem_cons_of_mem t hu, ha, hb⟩
    · rw [show processBatch pl (t :: ts) = processBatch pl ts by
          simp [processBatch, hk]] at he
      obtain ⟨u, hu, ha, hb⟩ := ih he
      exact ⟨u, List.mem_cons_of_mem t hu, ha, hb⟩

set_option maxRecDepth 4096 in
/-- Witness for C6: a 150-character surviving text is echoed as its first 100
characters followed by "...". -/
theorem batch_entry_echo_witness :
    (batchEntry constPipeline longText).text = pySlice longText 100 ++ "..." := by
  have hmem : batchEntry constPipeline longText ∈
      processBatch constPipeline [longText] := by
    have hk : textKept longText = true := by decide
    rw [show processBatch constPipeline [longText] =
        [batchEntry constPipeline longText] by simp [processBatch, hk]]
    exact List.mem_cons_self _ _
  obtain ⟨t, ht, ha, hb⟩ :=
    batch_entry_echo constPipeline [longText] (batchEntry constPipeline longText) hmem
  have ht' : t = longText := by simpa using ht
  subst ht'
  exact ha (by decide)

/-- C7: with the model loaded, `POST /analyze` returns 400 for empty or
whitespace-only text, and `POST /analyze/batch` returns 400 for an empty
texts list and for a list with more than 100 entries. -/
theorem loaded_input_validation (pl : Pipeline) (text : String)
    (texts : List String) :
    (pyLen (pyStrip text) = 0 →
      analyze_sentiment (some pl) text = HttpResult.error 400 "Text cannot be empty") ∧
    (texts = [] →
      analyze_sentiment_batch (some pl) texts = HttpResult.error 400 "No texts provided") ∧
    (100 < texts.length →
      analyze_sentiment_batch (some pl) texts =
        HttpResult.error 400 "Maximum 100 texts per batch") := by
  refine ⟨?_, ?_, ?_⟩
  · intro h
    simp [analyze_sentiment, h]
  · intro h
    subst h
    rfl
  · intro h
    have h0 : texts.length ≠ 0 := by omega
    have hne : texts.isEmpty = false := by
      cases texts with
      | nil => simp at h0
      | cons a as => rfl
    unfold analyze_sentiment_batch
    rw [hne]
    simp [h0, h]

/-- Witness for C7 at the empty text, the empty batch, and a 101-text
batch. -/
theorem loaded_input_validation_witness :
    analyze_sentiment (some constPipeline) "" =
      HttpResult.error 400 "Text cannot be empty" ∧
    analyze_sentiment_batch (some constPipeline) [] =
      HttpResult.error 400 "No texts provided" ∧
    analyze_sentiment_batch (some constPipeline) (List.replicate 101 "x") =
      HttpResult.error 400 "Maximum 100 texts per batch" :=
  ⟨(loaded_input_validation constPipeline "" []).1 (by decide),
   (loaded_input_validation constPipeline "" []).2.1 rfl,
   (loaded_input_validation constPipeline "" (List.replicate 101 "x")).2.2
     (by decide)⟩

/-- C8: with the pipeline null, `GET /health` still returns 200 with
model_loaded false, and both POST endpoints return 503. -/
theorem model_not_loaded_behavior (text : String) (texts : List String) :
    health_check (none : Option Pipeline) =
      HttpResult.ok { status := "healthy", model_loaded := false } ∧
    (health_check (none : Option Pipeline)).statusCode = 200 ∧
    analyze_sentiment none text = HttpResult.error 503 "Model not loaded" ∧
    analyze_sentiment_batch none texts = HttpResult.error 503 "Model not loaded" :=
  ⟨rfl, rfl, rfl, rfl⟩

/-- C9: the model-loaded check runs before input validation: with the
pipeline null every request gets status 503 and never 400, including an
empty text and an oversized texts list. -/
theorem model_check_precedes_validation (text : String) (texts : List String) :
    (analyze_sentiment none text).statusCode = 503 ∧
    (analyze_sentiment none text).statusCode ≠ 400 ∧
    (analyze_sentiment_batch none texts).statusCode = 503 ∧
    (analyze_sentiment_batch none texts).statusCode ≠ 400 := by
  have ha : (analyze_sentiment none text).statusCode = 503 := rfl
  have hb : (analyze_sentiment_batch none texts).statusCode = 503 := rfl
  refine ⟨ha, ?_, hb, ?_⟩
  · rw [ha]
    decide
  · rw [hb]
    decide

/-- C10: a non-empty batch of at most 100 texts that are all empty or
whitespace-only is not rejected: the endpoint returns 200 with an empty
results list and total 0. -/
theorem batch_all_blank_ok (pl : Pipeline) (texts : List String)
    (hne : texts ≠ []) (hlen : texts.length ≤ 100)
    (hall : ∀ t ∈ texts, textKept t = false) :
    analyze_sentiment_batch (some pl) texts =
      HttpResult.ok { results := [], total := 0 } ∧
    (analyze_sentiment_batch (some pl) texts).statusCode = 200 := by
  have hfilter : texts.filter textKept = [] := by
    rw [List.filter_eq_nil_iff]
    intro a ha
    simp [hall a ha]
  have hpb : processBatch pl texts = [] := by
    rw [processBatch_eq, hfilter]
    rfl
  have h0 : texts.length ≠ 0 := by
    cases texts with
    | nil => exact absurd rfl hne
    | cons a as => simp
  have hempty : texts.isEmpty = false := by
    cases texts with
    | nil => exact absurd rfl hne
    | cons a as => rfl
  have hok : analyze_sentiment_batch (some pl) texts =
      HttpResult.ok { results := [], total := 0 } := by
    unfold analyze_sentiment_batch
    rw [hempty]
    simp [h0, Nat.not_lt.2 hlen, hpb]
  exact ⟨hok, by rw [hok]; rfl⟩

/-- Witness for C10 at the all-blank batch ["", "  "]. -/
theorem batch_all_blank_ok_witness :
    analyze_sentiment_batch (some constPipeline) ["", "  "] =
      HttpResult.ok { results := [], total := 0 } ∧
    (analyze_sentiment_batch (some constPipeline) ["", "  "]).statusCode = 200 :=
  batch_all_blank_ok constPipeline ["", "  "] (by decide) (by decide) (by decide)

end LifeLens
